import Mathlib

/-!
Shallow embedding of `twitter_stream/management/commands/stream.py`
(django-twitter-stream): the stream supervisor command.

Time is modelled as a natural-number clock; `time.sleep(d)` advances it by
`d`.  Database rows are Lean structures; registry operations that live in
`models.py` (not part of the shown source) are modelled from the spec where
noted.  The environment supplies the result of each `ApiKey.get_keys`
attempt and the behaviour of each `start_polling` invocation.
-/

namespace TwitterStream

/-- StreamProcess.status values (STARTING, WAITING_FOR_KEYS, STREAMING, STOPPED). -/
inductive StreamStatus where
  | starting
  | waiting
  | streaming
  | stopped
deriving DecidableEq, Repr

/-- A credential record (`models.ApiKey`): opaque fields looked up by name. -/
structure ApiKey where
  user_name : String
  app_name : String
  api_key : String
  api_secret : String
  access_token : String
  access_token_secret : String
deriving DecidableEq, Repr

/-- The registry row for one supervisor run (`models.StreamProcess`). -/
structure StreamProcess where
  status : StreamStatus
  started_at : Nat
  last_heartbeat_at : Nat
  timeout_seconds : Nat
  keys : Option ApiKey
deriving DecidableEq, Repr

/-- Modelled from the spec: `heartbeat(record)` in `models.py` (not under
src/) updates `last_heartbeat_at = now` and persists the current status and
credential reference. -/
def heartbeat (now : Nat) (sp : StreamProcess) : StreamProcess :=
  { sp with last_heartbeat_at := now }

/-- The event sink (`utils.QueueStreamListener`): mirror-file path plus the
terminate flag set by `set_terminate()`. -/
structure Listener where
  to_file : Option String
  terminate : Bool
deriving DecidableEq, Repr

/-- How a code path ends the process: `stop` always raises SystemExit. -/
inductive Outcome where
  | systemExit
deriving DecidableEq, Repr

/-- Result of running the `stop` handler: the mutated registry row, the
mutated listener, and the process outcome. -/
structure StopRes where
  sp : StreamProcess
  listener : Listener
  outcome : Outcome
deriving DecidableEq, Repr

/-- The `stop(signum, frame)` handler (stream.py lines 135-149): set the
record status to STOPPED, heartbeat it, set the listener terminate flag,
and raise SystemExit.  `now` is the clock when the handler runs. -/
def stop (now : Nat) (sp : StreamProcess) (l : Listener) : StopRes :=
  let sp := { sp with status := StreamStatus.stopped }
  let sp := heartbeat now sp
  let l := { l with terminate := true }
  { sp := sp, listener := l, outcome := Outcome.systemExit }

/-- Observable registry / clock events emitted while `handle` runs. -/
inductive Ev where
  | expire
  | create (timeout : Nat)
  | getKeys (name : Option String)
  | sleep (d : Nat)
  | hb (t : Nat) (st : StreamStatus)
  | save
deriving DecidableEq, Repr

/-- Python truthiness of an optional string option (None and the empty
string are falsy). -/
def truthy : Option String → Bool
  | none => false
  | some s => !s.isEmpty

/-- The parsed command options (`add_arguments` / `options.get` defaults in
`handle`, stream.py lines 104-110). -/
structure Options where
  poll_interval : Nat
  prevent_exit : Bool
  to_file : Option String
  from_file : Option String
  from_file_long : Option String
  rate_limit : Option Nat
  limit : Option Nat
deriving DecidableEq, Repr

/-- Which term checker `handle` builds (stream.py lines 128-133):
`FakeTermChecker` when reading from a file, else `FeelsTermChecker`. -/
inductive CheckerKind where
  | fake
  | feels
deriving DecidableEq, Repr

/-- The first argument handed to `FakeTwitterStream`: either `sys.stdin`
(the `-` sentinel) or whatever is left in the `from_file` variable. -/
inductive FileArg where
  | stdin
  | file (p : Option String)
deriving DecidableEq, Repr

/-- The stream object `handle` constructs: `DynamicTwitterStream` with the
resolved keys, or `FakeTwitterStream` with file / pretty / limit / rate. -/
inductive Source where
  | live (k : ApiKey)
  | replay (f : FileArg) (pretty : Bool) (limit : Option Nat) (rate : Option Nat)
deriving DecidableEq, Repr

/-- The credential-resolution loop (stream.py lines 159-170): while `keys`
is unset, attempt `ApiKey.get_keys`, then `time.sleep(5)`, then set status
WAITING_FOR_KEYS and heartbeat.  `lookup i` is the environment's answer to
the i-th attempt (`none` models ObjectDoesNotExist).  `fuel` bounds how many
iterations we unroll; the returned option is `none` exactly when the loop is
still running when fuel runs out. -/
def credLoop (lookup : Nat → Option ApiKey) (name : Option String) :
    Nat → Nat → StreamProcess → Nat → Option ApiKey × StreamProcess × Nat × List Ev
  | 0, _, sp, t => (none, sp, t, [])
  | fuel + 1, i, sp, t =>
    let keys := lookup i
    let t' := t + 5
    let sp' := heartbeat t' { sp with status := StreamStatus.waiting }
    let evs := [Ev.getKeys name, Ev.sleep 5, Ev.hb t' StreamStatus.waiting]
    match keys with
    | some k => (some k, sp', t', evs)
    | none =>
      let rest := credLoop lookup name fuel (i + 1) sp' t'
      (rest.1, rest.2.1, rest.2.2.1, evs ++ rest.2.2.2)

/-- The record inserted by `models.StreamProcess.create(timeout_seconds)`
(stream.py lines 122-124); per the spec the new row has status STARTING and
both timestamps set to now. -/
def initialProcess (o : Options) (t0 : Nat) : StreamProcess :=
  { status := StreamStatus.starting
    started_at := t0
    last_heartbeat_at := t0
    timeout_seconds := 3 * o.poll_interval
    keys := none }

/-- The source-selection branch (stream.py lines 173-205): `if keys:` build
the live stream and persist the keys on the record; `elif from_file or
from_file_long:` build the replay stream, where line 189 performs the no-op
assignment `from_file = from_file` before setting pretty mode, and `-`
selects stdin; `else:` raise. -/
def selectSource (sp : StreamProcess) (keys : Option ApiKey)
    (from_file from_file_long : Option String) (limit rate_limit : Option Nat) :
    Except String (StreamProcess × Source) :=
  match keys with
  | some k => Except.ok ({ sp with keys := some k }, Source.live k)
  | none =>
    if truthy from_file || truthy from_file_long then
      let read_pretty := false
      let p := if truthy from_file_long then (from_file, true) else (from_file, read_pretty)
      let from_file := p.1
      let read_pretty := p.2
      let f := if from_file = some "-" then FileArg.stdin else FileArg.file from_file
      Except.ok (sp, Source.replay f read_pretty limit rate_limit)
    else
      Except.error "No api keys and we are not streaming from a file."

/-- Everything `handle` can have done by the time the poll loop would
start. -/
inductive SetupResult where
  | exited (code : Nat)
  | blocked (sp : StreamProcess) (t : Nat)
  | ready (sp : StreamProcess) (l : Listener) (ck : CheckerKind) (src : Source) (t : Nat)
  | raisedNoKeys
deriving DecidableEq, Repr

/-- Setup outcome together with the chronological trace of registry and
clock events. -/
structure SetupOut where
  result : SetupResult
  trace : List Ev
deriving DecidableEq, Repr

/-- The setup phase of `Command.handle` (stream.py lines 101-205): the
conflicting-options check and `exit(1)`; expiring stale records; creating
the StreamProcess row with `timeout_seconds = 3 * poll_interval`; building
the listener and checker; the credential loop (only when `from_file` is
falsy); and source selection. -/
def setup (keys_name : Option String) (o : Options) (lookup : Nat → Option ApiKey)
    (credFuel : Nat) (t0 : Nat) : SetupOut :=
  if truthy o.from_file && truthy o.from_file_long then
    { result := SetupResult.exited 1, trace := [] }
  else
    let sp := initialProcess o t0
    let tr := [Ev.expire, Ev.create (3 * o.poll_interval)]
    let listener : Listener := { to_file := o.to_file, terminate := false }
    let ck := if truthy o.from_file then CheckerKind.fake else CheckerKind.feels
    if truthy o.from_file then
      match selectSource sp none o.from_file o.from_file_long o.limit o.rate_limit with
      | Except.ok (sp, src) =>
        { result := SetupResult.ready sp listener ck src t0, trace := tr }
      | Except.error _ => { result := SetupResult.raisedNoKeys, trace := tr }
    else
      match credLoop lookup keys_name credFuel 0 sp t0 with
      | (some k, sp', t, evs) =>
        match selectSource sp' (some k) o.from_file o.from_file_long o.limit o.rate_limit with
        | Except.ok (sp'', src) =>
          { result := SetupResult.ready sp'' listener ck src t
            trace := tr ++ evs ++ [Ev.save] }
        | Except.error _ => { result := SetupResult.raisedNoKeys, trace := tr ++ evs }
      | (none, sp', t, evs) =>
        { result := SetupResult.blocked sp' t, trace := tr ++ evs }

/-- Status of the registry row in a `ready` setup outcome. -/
def readyStatus : SetupResult → Option StreamStatus
  | SetupResult.ready sp _ _ _ _ => some sp.status
  | _ => none

/-- Constructed source in a `ready` setup outcome. -/
def readySource : SetupResult → Option Source
  | SetupResult.ready _ _ _ src _ => some src
  | _ => none

/-- Persisted credential reference in a `ready` setup outcome. -/
def readyKeys : SetupResult → Option (Option ApiKey)
  | SetupResult.ready sp _ _ _ _ => some sp.keys
  | _ => none

/-- Normal poll-loop exit, checker no longer ok (stream.py lines 220-222
followed by the `finally:` call of `stop`): set STOPPED and heartbeat at
time `t`, then run the `stop` handler at time `tfin`. -/
def finishNormal (t tfin : Nat) (sp : StreamProcess) (l : Listener) : StopRes :=
  let sp := heartbeat t { sp with status := StreamStatus.stopped }
  stop tfin sp l

/-- An exception propagated out of the poll loop (stream.py lines 224-228):
the `except` clause only logs it, then the `finally:` clause runs `stop` at
time `tfin`. -/
def finishException (tfin : Nat) (sp : StreamProcess) (l : Listener) : StopRes :=
  stop tfin sp l

/-- An external termination signal: the installed handler runs `stop` at
time `tsig` and raises SystemExit; when the signal fired inside the
`try:` block, the `finally:` clause runs `stop` once more at `tfin`. -/
def finishSignal (tsig tfin : Nat) (insideTry : Bool) (sp : StreamProcess)
    (l : Listener) : StopRes :=
  let r := stop tsig sp l
  if insideTry then stop tfin r.sp r.listener else r

/-- What a given `stream.start_polling(poll_interval)` invocation does:
return normally or raise an exception. -/
inductive PollOutcome where
  | returns
  | raises
deriving DecidableEq, Repr

/-- The checker interface used by the poll loop (`checker.ok()` /
`checker.error(e)`), abstract over the checker's internal state. -/
structure Checker (σ : Type) where
  ok : σ → Bool
  err : σ → σ

/-- Observable result of the poll-loop construct: how many times
`start_polling` was invoked, how many errors were handed to
`checker.error`, how many `time.sleep(1)` pauses happened, whether an
exception escaped the construct, and the final checker state. -/
structure LoopRes (σ : Type) where
  calls : Nat
  errRecorded : Nat
  sleeps1 : Nat
  propagated : Bool
  state : σ

/-- The `else:` branch (stream.py line 218): `start_polling` runs exactly
once, and an exception it raises escapes uncaught. -/
def pollOnce {σ : Type} (behave : Nat → PollOutcome) (s : σ) : LoopRes σ :=
  match behave 0 with
  | PollOutcome.returns => ⟨1, 0, 0, false, s⟩
  | PollOutcome.raises => ⟨1, 0, 0, true, s⟩

/-- The `prevent_exit` branch (stream.py lines 211-216): while
`checker.ok()`, call `start_polling`; on an exception, hand it to
`checker.error` and `time.sleep(1)`, then loop again.  `fuel` bounds how
many iterations we unroll (running out of fuel means the loop is still
going, so nothing has escaped). -/
def pollGuarded {σ : Type} (C : Checker σ) (behave : Nat → PollOutcome) :
    Nat → Nat → σ → LoopRes σ
  | 0, _, s => ⟨0, 0, 0, false, s⟩
  | fuel + 1, i, s =>
    if C.ok s then
      match behave i with
      | PollOutcome.returns =>
        let r := pollGuarded C behave fuel (i + 1) s
        { r with calls := r.calls + 1 }
      | PollOutcome.raises =>
        let r := pollGuarded C behave fuel (i + 1) (C.err s)
        { r with calls := r.calls + 1
                 errRecorded := r.errRecorded + 1
                 sleeps1 := r.sleeps1 + 1 }
    else
      ⟨0, 0, 0, false, s⟩

/-- The whole poll-loop construct (stream.py lines 210-218). -/
def pollLoop {σ : Type} (C : Checker σ) (behave : Nat → PollOutcome)
    (prevent_exit : Bool) (fuel : Nat) (s : σ) : LoopRes σ :=
  if prevent_exit then pollGuarded C behave fuel 0 s else pollOnce behave s

/-- Specification-side trace of `n` failed credential attempts starting at
clock `t`, written from the spec's words: each attempt performs a lookup,
sleeps 5 time-units, and writes a WAITING_FOR_KEYS heartbeat. -/
def credTraceSpec (name : Option String) (t : Nat) : Nat → List Ev
  | 0 => []
  | n + 1 =>
    Ev.getKeys name :: Ev.sleep 5 :: Ev.hb (t + 5) StreamStatus.waiting ::
      credTraceSpec name (t + 5) n

/-- A concrete credential record used to instantiate theorems. -/
def k0 : ApiKey :=
  { user_name := "u", app_name := "a", api_key := "k", api_secret := "s"
    access_token := "t", access_token_secret := "ts" }

/-- A concrete registry row used to instantiate theorems. -/
def sp0 : StreamProcess :=
  { status := StreamStatus.starting, started_at := 0, last_heartbeat_at := 0
    timeout_seconds := 30, keys := none }

/-- A concrete listener used to instantiate theorems. -/
def l0 : Listener := { to_file := none, terminate := false }

/-- Concrete options with both replay flags set, for the C4 witness. -/
def c4opts : Options :=
  { poll_interval := 10, prevent_exit := false, to_file := none
    from_file := some "a.json", from_file_long := some "b.json"
    rate_limit := none, limit := none }

/-- Concrete options with neither replay flag set (a live run), used to
instantiate theorems. -/
def c7opts : Options :=
  { poll_interval := 10, prevent_exit := false, to_file := none
    from_file := none, from_file_long := none
    rate_limit := none, limit := none }

/-- Concrete options with only the pretty-printed replay flag set, used to
instantiate theorems. -/
def c2opts : Options :=
  { poll_interval := 10, prevent_exit := false, to_file := none
    from_file := none, from_file_long := some "tweets.json"
    rate_limit := none, limit := none }

/-- C9: the shutdown handler is idempotent: running `stop` on the state it
already produced changes nothing, so a signal-time invocation followed by
the normal-cleanup invocation leaves the record, the terminate flag and the
outcome exactly as a single invocation does. -/
theorem stop_idempotent (now : Nat) (sp : StreamProcess) (l : Listener) :
    stop now (stop now sp l).sp (stop now sp l).listener = stop now sp l := by
  simp [stop, heartbeat]

/-- C4: when both `from_file` and `from_file_long` are set, `handle` exits
with code 1 before any registry mutation: the trace is empty, so no stale
record is expired and no StreamProcess row is created. -/
theorem conflicting_replay_options_exit1
    (keys_name : Option String) (o : Options) (lookup : Nat → Option ApiKey)
    (credFuel t0 : Nat)
    (h1 : truthy o.from_file = true) (h2 : truthy o.from_file_long = true) :
    setup keys_name o lookup credFuel t0 =
      { result := SetupResult.exited 1, trace := [] } := by
  simp [setup, h1, h2]

/-- Witness for C4 at concrete options. -/
theorem conflicting_replay_options_exit1_witness :
    truthy c4opts.from_file = true ∧ truthy c4opts.from_file_long = true ∧
      setup (some "alice") c4opts (fun _ => (none : Option ApiKey)) 1 0 =
        { result := SetupResult.exited 1, trace := [] } :=
  ⟨by decide, by decide,
    conflicting_replay_options_exit1 (some "alice") c4opts
      (fun _ => (none : Option ApiKey)) 1 0 (by decide) (by decide)⟩

/-- C1: each termination path that begins at time `t` after the record
exists — normal poll-loop exit because the checker is no longer ok, an
exception propagating out of the poll loop, or an external termination
signal (inside or outside the `try:` block) — leaves the record STOPPED
with a heartbeat no older than `t`. -/
theorem termination_paths_leave_stopped
    (sp : StreamProcess) (l : Listener) (t tsig tfin : Nat) (b : Bool)
    (h1 : t ≤ tfin) (h2 : t ≤ tsig) :
    ((finishNormal t tfin sp l).sp.status = StreamStatus.stopped ∧
      t ≤ (finishNormal t tfin sp l).sp.last_heartbeat_at) ∧
    ((finishException tfin sp l).sp.status = StreamStatus.stopped ∧
      t ≤ (finishException tfin sp l).sp.last_heartbeat_at) ∧
    ((finishSignal tsig tfin b sp l).sp.status = StreamStatus.stopped ∧
      t ≤ (finishSignal tsig tfin b sp l).sp.last_heartbeat_at) := by
  cases b <;>
    simp [finishNormal, finishException, finishSignal, stop, heartbeat] <;>
    omega

/-- Witness for C1 at a concrete record, listener and clock values. -/
theorem termination_paths_leave_stopped_witness :
    2 ≤ 4 ∧ 2 ≤ 3 ∧
    (((finishNormal 2 4 sp0 l0).sp.status = StreamStatus.stopped ∧
        2 ≤ (finishNormal 2 4 sp0 l0).sp.last_heartbeat_at) ∧
      ((finishException 4 sp0 l0).sp.status = StreamStatus.stopped ∧
        2 ≤ (finishException 4 sp0 l0).sp.last_heartbeat_at) ∧
      ((finishSignal 3 4 true sp0 l0).sp.status = StreamStatus.stopped ∧
        2 ≤ (finishSignal 3 4 true sp0 l0).sp.last_heartbeat_at)) :=
  ⟨by decide, by decide,
    termination_paths_leave_stopped sp0 l0 2 3 4 true (by decide) (by decide)⟩

/-- C7: on every run that passes the configuration check, the trace starts
with expiring stale records and then creating the new record with
`timeout_seconds = 3 * poll_interval`, in that order. -/
theorem expire_precedes_create_with_triple_timeout
    (keys_name : Option String) (o : Options) (lookup : Nat → Option ApiKey)
    (credFuel t0 : Nat)
    (h : ¬(truthy o.from_file = true ∧ truthy o.from_file_long = true)) :
    (setup keys_name o lookup credFuel t0).trace.take 2 =
      [Ev.expire, Ev.create (3 * o.poll_interval)] := by
  have hc : (truthy o.from_file && truthy o.from_file_long) = false := by
    cases hf : truthy o.from_file <;> cases hl : truthy o.from_file_long <;>
      simp_all
  unfold setup
  rw [if_neg (by simp [hc])]
  by_cases hf : truthy o.from_file = true
  · simp [hf, selectSource]
  · rw [Bool.not_eq_true] at hf
    simp only [hf, Bool.false_eq_true, if_false]
    rcases hcl : credLoop lookup keys_name credFuel 0 (initialProcess o t0) t0
      with ⟨k, sp', t', evs⟩
    cases k <;> simp [selectSource, List.take]

/-- Witness for C7 at concrete options. -/
theorem expire_precedes_create_with_triple_timeout_witness :
    ¬(truthy c7opts.from_file = true ∧ truthy c7opts.from_file_long = true) ∧
    (setup (some "alice") c7opts (fun _ => (none : Option ApiKey)) 2 0).trace.take 2 =
      [Ev.expire, Ev.create (3 * c7opts.poll_interval)] :=
  ⟨by decide,
    expire_precedes_create_with_triple_timeout (some "alice") c7opts
      (fun _ => (none : Option ApiKey)) 2 0 (by decide)⟩

/-- C10: the `else: raise Exception(...)` arm of the source-selection
branch is unreachable: whichever options, lookup results and fuel the run
has, setup never ends in the raised-no-keys outcome, because reaching the
selection with no keys implies `from_file` was truthy. -/
theorem no_keys_raise_unreachable
    (keys_name : Option String) (o : Options) (lookup : Nat → Option ApiKey)
    (credFuel t0 : Nat) :
    (setup keys_name o lookup credFuel t0).result ≠ SetupResult.raisedNoKeys := by
  unfold setup
  by_cases hc : (truthy o.from_file && truthy o.from_file_long) = true
  · simp [hc]
  · rw [if_neg (by simp [hc])]
    by_cases hf : truthy o.from_file = true
    · simp [hf, selectSource]
    · rw [Bool.not_eq_true] at hf
      simp only [hf, Bool.false_eq_true, if_false]
      rcases hcl : credLoop lookup keys_name credFuel 0 (initialProcess o t0) t0
        with ⟨k, sp', t', evs⟩
      cases k <;> simp [selectSource]

/-- C5: when no matching credential record ever appears, the resolution
loop never produces keys — however far it is unrolled the result is still
`none` — and its trace is exactly one lookup attempt, a 5-time-unit sleep
and a WAITING_FOR_KEYS heartbeat per iteration, as `credTraceSpec`
prescribes. -/
theorem cred_resolution_never_returns
    (lookup : Nat → Option ApiKey) (name : Option String)
    (fuel i t : Nat) (sp : StreamProcess)
    (h : ∀ j, lookup j = none) :
    (credLoop lookup name fuel i sp t).1 = none ∧
    (credLoop lookup name fuel i sp t).2.2.2 = credTraceSpec name t fuel := by
  induction fuel generalizing i sp t with
  | zero => exact ⟨rfl, rfl⟩
  | succ n ih =>
    simp only [credLoop, h i]
    refine ⟨(ih (i + 1) (t + 5) _).1, ?_⟩
    simp [credTraceSpec, (ih (i + 1) (t + 5) _).2]

/-- Witness for C5: three unrollings with an always-empty store. -/
theorem cred_resolution_never_returns_witness :
    (∀ j : Nat, (fun _ : Nat => (none : Option ApiKey)) j = none) ∧
    ((credLoop (fun _ => (none : Option ApiKey)) (some "alice") 3 0 sp0 0).1 = none ∧
      (credLoop (fun _ => (none : Option ApiKey)) (some "alice") 3 0 sp0 0).2.2.2 =
        credTraceSpec (some "alice") 0 3) :=
  ⟨fun _ => rfl,
    cred_resolution_never_returns (fun _ => (none : Option ApiKey)) (some "alice")
      3 0 0 sp0 (fun _ => rfl)⟩

/-- Helper: the guarded loop never lets an exception escape. -/
theorem pollGuarded_propagated_false {σ : Type} (C : Checker σ)
    (behave : Nat → PollOutcome) :
    ∀ fuel i s, (pollGuarded C behave fuel i s).propagated = false := by
  intro fuel
  induction fuel with
  | zero => intro i s; rfl
  | succ n ih =>
    intro i s
    simp only [pollGuarded]
    by_cases hok : C.ok s = true
    · rw [if_pos hok]
      cases behave i <;> simp [ih]
    · rw [if_neg hok]

/-- Helper: the guarded loop pairs every recorded error with one
`time.sleep(1)` pause. -/
theorem pollGuarded_sleeps_eq_err {σ : Type} (C : Checker σ)
    (behave : Nat → PollOutcome) :
    ∀ fuel i s,
      (pollGuarded C behave fuel i s).sleeps1 =
        (pollGuarded C behave fuel i s).errRecorded := by
  intro fuel
  induction fuel with
  | zero => intro i s; rfl
  | succ n ih =>
    intro i s
    simp only [pollGuarded]
    by_cases hok : C.ok s = true
    · rw [if_pos hok]
      cases behave i <;> simp [ih]
    · rw [if_neg hok]

/-- C6: the `else` branch invokes `start_polling` exactly once, records no
error, sleeps never, and lets an exception propagate exactly when the
single invocation raises; the `prevent_exit` branch never lets an
exception escape, pairs every recorded error with a 1-time-unit sleep, and
makes no invocation at all unless `checker.ok()` held at entry. -/
theorem poll_loop_retry_semantics {σ : Type} (C : Checker σ)
    (behave : Nat → PollOutcome) (fuel : Nat) (s : σ) :
    ((pollLoop C behave false fuel s).calls = 1 ∧
      (pollLoop C behave false fuel s).errRecorded = 0 ∧
      (pollLoop C behave false fuel s).sleeps1 = 0 ∧
      ((pollLoop C behave false fuel s).propagated = true ↔
        behave 0 = PollOutcome.raises)) ∧
    ((pollLoop C behave true fuel s).propagated = false ∧
      (pollLoop C behave true fuel s).sleeps1 =
        (pollLoop C behave true fuel s).errRecorded ∧
      (C.ok s = true ∨ (pollLoop C behave true fuel s).calls = 0)) := by
  constructor
  · simp only [pollLoop, if_false, Bool.false_eq_true, pollOnce]
    cases hb : behave 0 <;> simp [hb]
  · refine ⟨?_, ?_, ?_⟩
    · simp [pollLoop, pollGuarded_propagated_false]
    · simp [pollLoop, pollGuarded_sleeps_eq_err]
    · by_cases hok : C.ok s = true
      · exact Or.inl hok
      · refine Or.inr ?_
        simp only [pollLoop, if_pos]
        cases fuel with
        | zero => rfl
        | succ n => simp [pollGuarded, hok]

/-- C2 (code bug): an invocation with only `from_file_long` set does not
skip credential resolution — with keys available it performs a lookup,
sleeps 5 time-units, writes a WAITING_FOR_KEYS heartbeat, persists the
keys, and constructs the Live source, never the Replay source, because the
guard at line 157 tests only `from_file`. -/
theorem from_file_long_still_resolves_credentials :
    setup (some "alice") c2opts (fun _ => some k0) 1 0 =
      { result := SetupResult.ready
          { status := StreamStatus.waiting, started_at := 0, last_heartbeat_at := 5
            timeout_seconds := 30, keys := some k0 }
          { to_file := none, terminate := false }
          CheckerKind.feels (Source.live k0) 5
        trace := [Ev.expire, Ev.create 30, Ev.getKeys (some "alice"), Ev.sleep 5,
          Ev.hb 5 StreamStatus.waiting, Ev.save] } := by
  rfl

/-- C3 (code bug): in the pretty-printed branch of source selection, the
no-op assignment at line 189 (`from_file = from_file`) discards the path
supplied via `from_file_long`: the replay source is built in pretty mode
but reads from `None` instead of the given file, and even the `-` sentinel
fails to select stdin. -/
theorem pretty_replay_branch_discards_path :
    selectSource sp0 none none (some "tweets.json") none none =
      Except.ok (sp0, Source.replay (FileArg.file none) true none none) ∧
    selectSource sp0 none none (some "-") none none =
      Except.ok (sp0, Source.replay (FileArg.file none) true none none) :=
  ⟨rfl, rfl⟩

/-- Helper: whenever the credential loop succeeds, the record it hands back
has status WAITING_FOR_KEYS (the last heartbeat before exiting the loop set
that status). -/
theorem credLoop_success_status (lookup : Nat → Option ApiKey)
    (name : Option String) :
    ∀ fuel i sp t, (credLoop lookup name fuel i sp t).1.isSome = true →
      (credLoop lookup name fuel i sp t).2.1.status = StreamStatus.waiting := by
  intro fuel
  induction fuel with
  | zero =>
    intro i sp t h
    simp [credLoop] at h
  | succ n ih =>
    intro i sp t h
    simp only [credLoop] at h ⊢
    cases hl : lookup i with
    | some k2 => rfl
    | none =>
      rw [hl] at h
      exact ih (i + 1) _ (t + 5) h

/-- C8 counterexample: a live run in which credential resolution succeeds
immediately persists the keys and constructs the Live source, but at that
moment the record's status is WAITING_FOR_KEYS, not STREAMING. -/
theorem live_construction_not_streaming_at_input :
    readySource (setup (some "alice") c7opts (fun _ => some k0) 1 0).result =
      some (Source.live k0) ∧
    readyKeys (setup (some "alice") c7opts (fun _ => some k0) 1 0).result =
      some (some k0) ∧
    readyStatus (setup (some "alice") c7opts (fun _ => some k0) 1 0).result =
      some StreamStatus.waiting ∧
    readyStatus (setup (some "alice") c7opts (fun _ => some k0) 1 0).result ≠
      some StreamStatus.streaming := by
  refine ⟨rfl, rfl, rfl, ?_⟩
  decide

/-- C8 amended: for every live-source run in which credential resolution
succeeds, the supervisor persists the resolved credential reference on the
record before constructing the Live Source, but the record's status at that
point is WAITING_FOR_KEYS — the STREAMING transition is not performed by
`handle` before construction. -/
theorem live_construction_persists_keys_status_waiting
    (keys_name : Option String) (o : Options) (lookup : Nat → Option ApiKey)
    (credFuel t0 : Nat) (k : ApiKey) (sp' : StreamProcess) (t' : Nat)
    (evs : List Ev)
    (hf : truthy o.from_file = false)
    (hcl : credLoop lookup keys_name credFuel 0 (initialProcess o t0) t0 =
      (some k, sp', t', evs)) :
    (setup keys_name o lookup credFuel t0).result =
      SetupResult.ready { sp' with keys := some k }
        { to_file := o.to_file, terminate := false }
        CheckerKind.feels (Source.live k) t' ∧
    sp'.status = StreamStatus.waiting := by
  constructor
  · unfold setup
    rw [if_neg (by simp [hf])]
    simp only [hf, Bool.false_eq_true, if_false]
    rw [hcl]
    rfl
  · have h2 : (credLoop lookup keys_name credFuel 0 (initialProcess o t0) t0).2.1 =
        sp' := by rw [hcl]
    have h1 : (credLoop lookup keys_name credFuel 0
        (initialProcess o t0) t0).1.isSome = true := by rw [hcl]; rfl
    rw [← h2]
    exact credLoop_success_status lookup keys_name credFuel 0
      (initialProcess o t0) t0 h1

/-- Witness for the amended C8 at a concrete immediately-succeeding run. -/
theorem live_construction_persists_keys_status_waiting_witness :
    truthy c7opts.from_file = false ∧
    credLoop (fun _ => some k0) (some "alice") 1 0 (initialProcess c7opts 0) 0 =
      (some k0,
        { status := StreamStatus.waiting, started_at := 0, last_heartbeat_at := 5
          timeout_seconds := 30, keys := none }, 5,
        [Ev.getKeys (some "alice"), Ev.sleep 5, Ev.hb 5 StreamStatus.waiting]) ∧
    ((setup (some "alice") c7opts (fun _ => some k0) 1 0).result =
      SetupResult.ready
        { status := StreamStatus.waiting, started_at := 0, last_heartbeat_at := 5
          timeout_seconds := 30, keys := some k0 }
        { to_file := none, terminate := false }
        CheckerKind.feels (Source.live k0) 5 ∧
      StreamStatus.waiting = StreamStatus.waiting) :=
  ⟨rfl, rfl,
    live_construction_persists_keys_status_waiting (some "alice") c7opts
      (fun _ => some k0) 1 0 k0
      { status := StreamStatus.waiting, started_at := 0, last_heartbeat_at := 5
        timeout_seconds := 30, keys := none } 5
      [Ev.getKeys (some "alice"), Ev.sleep 5, Ev.hb 5 StreamStatus.waiting]
      rfl rfl⟩

end TwitterStream
